import Mathlib

/-
Verification of the BACnet_django telemetry-collection and anomaly-scoring
core (discovery/services.py and discovery/ml_utils.py), as a shallow
embedding in Lean 4.

Modelling conventions:
- Machine floats are embedded as exact numbers: the statistical layer that
  Python computes with numpy floats is embedded over the rationals where the
  computation is rational (percentiles, IQR) and over the reals where a
  square root occurs (population standard deviation, z-scores).
- Python values read from the network are embedded as the inductive type
  BValue: a numeric payload, or a non-numeric payload (a value whose str()
  does not parse as a float).  Null responses are Option.none.
- Python tuples of varying arity are embedded as List PyVal, and Python
  tuple unpacking as the function unpack3, which fails exactly when the
  list does not have three elements, mirroring the ValueError raised by
  CPython on an arity mismatch.
- Exceptions are embedded with Except: a function that cannot raise to its
  caller has a plain (non-Except) result type.
- Database side effects (created readings, created alarms, point-cache
  writes) are accumulated in the ProcState record, which also carries the
  counters of the results dict of collect_all_readings.  Timestamps are an
  abstract tick (a natural number) passed in by the caller.
-/

/-- BACnetConstants.READABLE_OBJECT_TYPES from discovery/constants.py. -/
def readableObjectTypes : List String :=
  ["analogInput", "analogOutput", "analogValue",
   "binaryInput", "binaryOutput", "binaryValue",
   "multiStateInput", "multiStateOutput", "multiStateValue"]

/-- BACnetConstants.ANALOG_OBJECT_TYPES from discovery/constants.py. -/
def analogObjectTypes : List String :=
  ["analogInput", "analogOutput", "analogValue"]

/-- MAX_BATCH_SIZE from discovery/services.py. -/
def maxBatchSize : Nat := 50

/-- AnomalyDetector.MIN_DATA_POINTS from discovery/ml_utils.py. -/
def minDataPoints : Nat := 5

/-- AnomalyDetector.IQR_MULTIPLIER from discovery/ml_utils.py. -/
def iqrMultiplier : ℚ := 3 / 2

/-- A BACnetPoint row: identity fields plus the cached fields that
_process_batch_results writes back (present_value, object_name, units,
value_last_read).  An empty units string models a NULL/blank units column,
matching Python truthiness of the field. -/
structure BACnetPoint where
  deviceId : Nat
  objectType : String
  instanceNumber : Nat
  identifier : String
  objectName : Option String
  units : String
  presentValue : Option String
  valueLastRead : Option Nat
  deriving Repr, DecidableEq

/-- A raw value returned by the point interface: a numeric payload, or a
payload whose string form does not parse as a float (such as the state
text of a binary point). -/
inductive BValue where
  | num (q : ℚ)
  | nonNum (s : String)
  deriving Repr, DecidableEq

/-- A Python runtime value as it flows through the anomaly tuple: None, a
float (embedded as a real number), or a bool. -/
inductive PyVal where
  | pyNone
  | num (x : ℝ)
  | bool (b : Bool)

/-- Python truthiness of an optional raw value (None, empty string and
numeric zero are falsy). -/
def pyTruthyBValue : Option BValue → Bool
  | none => false
  | some (BValue.num q) => q != 0
  | some (BValue.nonNum s) => s != ""

/-- str() of a raw value, used when _process_batch_results writes a
response payload into a point cache column. -/
def pyStrOf : BValue → String
  | BValue.num q => toString q
  | BValue.nonNum s => s

/-- float(str(v)) as used by _detect_anomaly_if_temperature: numeric
payloads parse back exactly, non-numeric payloads raise ValueError
(embedded as none). -/
def parseFloat : BValue → Option ℚ
  | BValue.num q => some q
  | BValue.nonNum _ => none

/-- Insert a value into an ascending-sorted list of rationals. -/
def insertSorted (x : ℚ) : List ℚ → List ℚ
  | [] => [x]
  | y :: ys => if x ≤ y then x :: y :: ys else y :: insertSorted x ys

/-- Ascending sort of a list of rationals; models the sorted order used by
numpy percentile/median. -/
def pySort (l : List ℚ) : List ℚ := l.foldr insertSorted []

/-- numpy.percentile with the default linear interpolation: the virtual
index is p/100 * (n-1); the result interpolates between the floor and
ceiling entries of the sorted data. -/
def npPercentile (l : List ℚ) (p : ℚ) : ℚ :=
  let s := pySort l
  let h : ℚ := p / 100 * ((s.length : ℚ) - 1)
  let lo : Nat := (⌊h⌋).toNat
  let hi : Nat := (⌈h⌉).toNat
  let vlo := s.getD lo 0
  let vhi := s.getD hi 0
  vlo + (h - (lo : ℚ)) * (vhi - vlo)

/-- numpy.median, which on a sorted list agrees with the 50th linear
percentile. -/
def npMedian (l : List ℚ) : ℚ := npPercentile l 50

/-- numpy.mean (empty input never reaches this in guarded callers). -/
def npMean (l : List ℚ) : ℚ := l.sum / (l.length : ℚ)

/-- numpy population variance: mean of squared deviations. -/
def npVar (l : List ℚ) : ℚ :=
  (l.map (fun x => (x - npMean l) ^ 2)).sum / (l.length : ℚ)

/-- numpy.std, the square root of the population variance. -/
noncomputable def npStd (l : List ℚ) : ℝ := Real.sqrt ((npVar l : ℚ) : ℝ)

/-- The two exception classes raised inside AnomalyDetector and caught by
its public methods: InsufficientAnomalyDataError and
StatisticalCalculationError. -/
inductive AnomalyErr where
  | insufficientData
  | statCalc
  deriving Repr, DecidableEq

/-- AnomalyDetector._calculate_iqr_bounds: requires at least
MIN_DATA_POINTS values, computes Q1/Q3/IQR, raises on zero IQR, and
returns (lower_bound, upper_bound, median, iqr). -/
def calculateIqrBounds (values : List ℚ) : Except AnomalyErr (ℚ × ℚ × ℚ × ℚ) :=
  if values.length < minDataPoints then Except.error AnomalyErr.insufficientData
  else
    let q1 := npPercentile values 25
    let q3 := npPercentile values 75
    let iqr := q3 - q1
    if iqr = 0 then Except.error AnomalyErr.statCalc
    else Except.ok (q1 - iqrMultiplier * iqr, q3 + iqrMultiplier * iqr, npMedian values, iqr)

/-- AnomalyDetector.detect_iqr_anomaly: returns (iqr_score, is_anomaly);
both exception classes are caught and turned into (0.0, False), so the
function never raises to its caller. -/
def detectIqrAnomaly (values : List ℚ) (newValue : ℚ) : ℚ × Bool :=
  match calculateIqrBounds values with
  | Except.error _ => (0, false)
  | Except.ok (lowerBound, upperBound, median, iqr) =>
      (|newValue - median| / iqr, newValue < lowerBound || newValue > upperBound)

/-- AnomalyDetector._calculate_z_score_stats: requires at least
MIN_DATA_POINTS values, raises InsufficientAnomalyDataError when the
standard deviation is zero, and otherwise returns the absolute z-score of
the new value. -/
noncomputable def calculateZScoreStats (values : List ℚ) (newValue : ℚ) :
    Except AnomalyErr ℝ :=
  if values.length < minDataPoints then Except.error AnomalyErr.insufficientData
  else if npStd values = 0 then Except.error AnomalyErr.insufficientData
  else Except.ok (|((newValue : ℚ) : ℝ) - ((npMean values : ℚ) : ℝ)| / npStd values)

/-- AnomalyDetector.detect_z_score_anomaly: both exception classes are
caught and turned into 0.0, so the method never raises to its caller. -/
noncomputable def detectZScoreAnomaly (values : List ℚ) (newValue : ℚ) : ℝ :=
  match calculateZScoreStats values newValue with
  | Except.error _ => 0
  | Except.ok z => z

/-- AnomalyDetector.z_score_threshold (constructor default 2.5). -/
noncomputable def zScoreThreshold : ℝ := 5 / 2

/-- The verdict computed inside _detect_anomaly_if_temperature:
z_is_anomaly (strict comparison with the threshold) OR iqr_is_anomaly.
This is the boolean that reaches _create_reading_with_alarm_check. -/
noncomputable def combinedIsAnomaly (zScore : ℝ) (iqrIsAnomaly : Bool) : Bool :=
  decide (zScore > zScoreThreshold) || iqrIsAnomaly

/-- The score fusion of AnomalyDetector.detect_ensemble_anomaly
(ml_utils.py lines 264-272), taking the three sub-method results as
arguments: each raw score is normalised and the fixed weights
0.4 / 0.3 / 0.3 are applied. -/
noncomputable def ensembleScore (zScore : ℝ) (iqrScore : ℚ) (isoScore : ℝ) : ℝ :=
  let zNorm := min (zScore / zScoreThreshold) 1
  let iqrNorm := min (((iqrScore : ℚ) : ℝ) / 2) 1
  let isoNorm := |isoScore|
  (4 / 10) * zNorm + (3 / 10) * iqrNorm + (3 / 10) * isoNorm

/-- The boolean verdict of AnomalyDetector.detect_ensemble_anomaly
(ml_utils.py lines 274-275), taking the three sub-method results as
arguments: z-score at or above threshold, or the IQR flag, or the
isolation-forest flag, or ensemble score above 0.6. -/
noncomputable def ensembleIsAnomaly (zScore : ℝ) (iqrScore : ℚ)
    (iqrIsAnomaly : Bool) (isoScore : ℝ) (isoIsAnomaly : Bool) : Bool :=
  decide (zScore ≥ zScoreThreshold) || iqrIsAnomaly || isoIsAnomaly ||
    decide (ensembleScore zScore iqrScore isoScore > 6 / 10)

/-- Lowercase of a character list; models str.lower(). -/
def lowerChars (l : List Char) : List Char := l.map Char.toLower

/-- Whether pat occurs at the start of the character list. -/
def charsStartWith : List Char → List Char → Bool
  | [], _ => true
  | _ :: _, [] => false
  | p :: ps, c :: cs => p == c && charsStartWith ps cs

/-- Whether pat occurs anywhere in the character list; models the Python
membership test pat in s. -/
def charsContain (pat : List Char) : List Char → Bool
  | [] => pat.isEmpty
  | c :: cs => charsStartWith pat (c :: cs) || charsContain pat (c :: cs).tail ||
      charsContain pat cs

/-- The guard of _detect_anomaly_if_temperature: object type analogInput,
a truthy units string, and the word degree occurring in the lowercased
units text. -/
def isTemperaturePoint (p : BACnetPoint) : Bool :=
  p.objectType == "analogInput" && p.units != "" &&
    charsContain "degree".data (lowerChars p.units.data)

/-- BACnetService._detect_anomaly_if_temperature, returning the Python
tuple as a list of runtime values.  On the temperature path the body
returns a 3-tuple (z_score, iqr_score, combined_is_anomaly); on every
other path (non-temperature point, or float() failing) it returns the
2-tuple (None, False) of the final return statement. -/
noncomputable def detectAnomalyIfTemperature (p : BACnetPoint)
    (history : List ℚ) (v : BValue) : List PyVal :=
  if isTemperaturePoint p then
    match parseFloat v with
    | some x =>
        let z := detectZScoreAnomaly history x
        let iqrResult := detectIqrAnomaly history x
        [PyVal.num z, PyVal.num ((iqrResult.1 : ℚ) : ℝ),
         PyVal.bool (combinedIsAnomaly z iqrResult.2)]
    | none => [PyVal.pyNone, PyVal.bool false]
  else [PyVal.pyNone, PyVal.bool false]

/-- Python tuple unpacking into three targets: succeeds exactly on a
3-element tuple, otherwise raises ValueError. -/
def unpack3 : List PyVal → Except Unit (PyVal × PyVal × PyVal)
  | [a, b, c] => Except.ok (a, b, c)
  | _ => Except.error ()

/-- Python x or 0 coercion used for combined_score: None and falsy values
give 0; a bool participates as 0 or 1. -/
def pyOrZero : PyVal → ℝ
  | PyVal.pyNone => 0
  | PyVal.num x => x
  | PyVal.bool b => if b then 1 else 0

/-- Using a tuple component as a float (severity comparison and the .2f
format specifiers): None raises TypeError, a bool converts to 0 or 1. -/
def pyToFloat : PyVal → Except Unit ℝ
  | PyVal.pyNone => Except.error ()
  | PyVal.num x => Except.ok x
  | PyVal.bool b => Except.ok (if b then 1 else 0)

/-- Python truthiness of a tuple component, as applied to the unpacked
is_anomaly value. -/
noncomputable def pyValTruthy : PyVal → Bool
  | PyVal.pyNone => false
  | PyVal.num x => decide (x ≠ 0)
  | PyVal.bool b => b

/-- A persisted BACnetReading row as created by the pipeline (the fields
the claims are about). -/
structure Reading where
  pointIdentifier : String
  value : BValue
  anomalyScore : ℝ
  isAnomaly : Bool

/-- The data interpolated into the AlarmHistory message f-string: point
identifier, value, and the two component scores. -/
structure AlarmMessage where
  identifier : String
  value : BValue
  zScore : ℝ
  iqrScore : ℝ

/-- A persisted AlarmHistory row as created by
_create_reading_with_alarm_check. -/
structure AlarmRecord where
  deviceId : Nat
  pointIdentifier : String
  alarmType : String
  severity : String
  triggeredValue : BValue
  thresholdValue : ℝ
  message : AlarmMessage

/-- BACnetService._create_reading_with_alarm_check.  The Reading row is
always created first; when is_anomaly is truthy an AlarmHistory row is
additionally created, with severity medium when z_score < 5.0 and high
otherwise.  Using a None z_score or iqr_score in the severity comparison
or the .2f message formatting raises TypeError after the Reading was
already persisted, which the Except component records. -/
noncomputable def createReadingWithAlarmCheck (p : BACnetPoint) (value : BValue)
    (zScore iqrScore : PyVal) (isAnomaly : Bool) :
    Reading × Except Unit (Option AlarmRecord) :=
  let combinedScore := max (pyOrZero zScore) (pyOrZero iqrScore)
  let reading : Reading :=
    { pointIdentifier := p.identifier, value := value,
      anomalyScore := combinedScore, isAnomaly := isAnomaly }
  if isAnomaly then
    match pyToFloat zScore, pyToFloat iqrScore with
    | Except.ok zf, Except.ok qf =>
        (reading, Except.ok (some
          { deviceId := p.deviceId, pointIdentifier := p.identifier,
            alarmType := "anomaly_detected",
            severity := if zf < 5 then "medium" else "high",
            triggeredValue := value, thresholdValue := combinedScore,
            message := { identifier := p.identifier, value := value,
                         zScore := zf, iqrScore := qf } }))
    | _, _ => (reading, Except.error ())
  else (reading, Except.ok none)

/-- The mutable collection state: the persisted rows and cache writes
(database effects) plus the counters of the results dict, plus a trace of
the identifiers read through _read_single_point. -/
structure ProcState where
  readings : List Reading
  alarms : List AlarmRecord
  pointWrites : List BACnetPoint
  readingsCollected : Nat
  devicesProcessed : Nat
  devicesFailed : Nat
  singleReads : List String

/-- BACnetService._initialise_results: all counters start at zero (the
timestamp of the dict is not modelled). -/
def initialiseResults : ProcState :=
  { readings := [], alarms := [], pointWrites := [], readingsCollected := 0,
    devicesProcessed := 0, devicesFailed := 0, singleReads := [] }

/-- The point-cache write-back of _process_batch_results lines 564-570:
present_value and value_last_read are always set, object_name and units
only when the response payload is truthy. -/
def updatePointFromBatch (p : BACnetPoint) (presentValue : BValue)
    (objName unitsVal : Option BValue) (now : Nat) : BACnetPoint :=
  { p with
    presentValue := some (pyStrOf presentValue),
    objectName := if pyTruthyBValue objName then
        (match objName with | some v => some (pyStrOf v) | none => p.objectName)
      else p.objectName,
    units := if pyTruthyBValue unitsVal then
        (match unitsVal with | some v => pyStrOf v | none => p.units)
      else p.units,
    valueLastRead := some now }

/-- BACnetService._read_single_point: one current-value read; a None value
creates nothing; any exception inside the body (including the ValueError
from unpacking the 2-tuple, and a TypeError after the Reading insert) is
caught and logged, so the function never raises and never stops the
caller.  The singleReads trace records that the point was attempted. -/
noncomputable def readSinglePoint (p : BACnetPoint)
    (resp : Except Unit (Option BValue)) (history : List ℚ)
    (st : ProcState) : ProcState :=
  let st := { st with singleReads := st.singleReads ++ [p.identifier] }
  match resp with
  | Except.error _ => st
  | Except.ok none => st
  | Except.ok (some v) =>
      match unpack3 (detectAnomalyIfTemperature p history v) with
      | Except.error _ => st
      | Except.ok (z, iqr, isAnom) =>
          let result := createReadingWithAlarmCheck p v z iqr (pyValTruthy isAnom)
          match result.2 with
          | Except.error _ => { st with readings := st.readings ++ [result.1] }
          | Except.ok alarmOpt =>
              { st with
                readings := st.readings ++ [result.1],
                alarms := st.alarms ++ alarmOpt.toList,
                readingsCollected := st.readingsCollected + 1 }

/-- BACnetService._process_batch_results: walk the point list in lockstep
with the flat value list (3 values for analog-family points, 2
otherwise); for each non-null present value run anomaly detection, create
the reading, and write the point cache.  The Except component records an
exception escaping the loop (the ValueError of the 2-tuple unpacking, or
a TypeError from the alarm branch); effects made before the exception are
kept. -/
noncomputable def processBatchLoop (histories : String → List ℚ) (now : Nat)
    (values : List (Option BValue)) :
    List BACnetPoint → Nat → ProcState → ProcState × Except Unit Unit
  | [], _, st => (st, Except.ok ())
  | p :: rest, idx, st =>
      let presentValue := values.getD idx none
      let objName := values.getD (idx + 1) none
      let isAnalog := p.objectType ∈ analogObjectTypes
      let unitsVal := if isAnalog then values.getD (idx + 2) none else none
      let nextIdx := if isAnalog then idx + 3 else idx + 2
      match presentValue with
      | none => processBatchLoop histories now values rest nextIdx st
      | some v =>
          match unpack3 (detectAnomalyIfTemperature p (histories p.identifier) v) with
          | Except.error e => (st, Except.error e)
          | Except.ok (z, iqr, isAnom) =>
              let result := createReadingWithAlarmCheck p v z iqr (pyValTruthy isAnom)
              match result.2 with
              | Except.error e =>
                  ({ st with readings := st.readings ++ [result.1] }, Except.error e)
              | Except.ok alarmOpt =>
                  let st :=
                    { st with
                      readings := st.readings ++ [result.1],
                      alarms := st.alarms ++ alarmOpt.toList,
                      pointWrites := st.pointWrites ++
                        [updatePointFromBatch p v objName unitsVal now],
                      readingsCollected := st.readingsCollected + 1 }
                  processBatchLoop histories now values rest nextIdx st

/-- BACnetService._process_batch_results entry point (value_index starts
at 0). -/
noncomputable def processBatchResults (points : List BACnetPoint)
    (values : List (Option BValue)) (histories : String → List ℚ) (now : Nat)
    (st : ProcState) : ProcState × Except Unit Unit :=
  processBatchLoop histories now values points 0 st

/-- BACnetService._build_batch_request, per-point segment: object type,
instance number, presentValue, objectName, plus units for analog-family
object types. -/
def pointRequestParts (p : BACnetPoint) : List String :=
  [p.objectType, toString p.instanceNumber, "presentValue", "objectName"] ++
    (if p.objectType ∈ analogObjectTypes then ["units"] else [])

/-- BACnetService._build_batch_request: the device address followed by the
parts of each point in order (the source builds the same list with
request_parts.extend and append in a loop). -/
def buildBatchRequest (address : String) (points : List BACnetPoint) : List String :=
  points.foldl (fun acc p => acc ++ pointRequestParts p) [address]

/-- BACnetService._calculate_expected_values: 3 per analog-family point, 2
per other point. -/
def calculateExpectedValues (points : List BACnetPoint) : Nat :=
  points.foldl
    (fun acc p => acc + (if p.objectType ∈ analogObjectTypes then 3 else 2)) 0

/-- The acceptance test of _execute_batch_read line 582: values truthy
(non-null and non-empty) and of exactly the expected length. -/
def batchAccept (values : Option (List (Option BValue))) (expected : Nat) : Bool :=
  match values with
  | none => false
  | some l => !l.isEmpty && l.length == expected

/-- BACnetService._execute_batch_read.  The transport response is either a
transport/connection error (which the source converts to
BACnetBatchReadError) or a possibly-null value list.  On an accepted
response the results are processed; an exception escaping processing is
also converted to BACnetBatchReadError.  Returns the updated state plus
ok true (accepted), ok false (count mismatch or null response) or error
(BACnetBatchReadError). -/
noncomputable def executeBatchRead (points : List BACnetPoint)
    (resp : Except Unit (Option (List (Option BValue))))
    (histories : String → List ℚ) (now : Nat) (st : ProcState) :
    ProcState × Except Unit Bool :=
  match resp with
  | Except.error _ => (st, Except.error ())
  | Except.ok values =>
      if batchAccept values (calculateExpectedValues points) then
        match processBatchResults points (values.getD []) histories now st with
        | (st2, Except.ok ()) => (st2, Except.ok true)
        | (st2, Except.error e) => (st2, Except.error e)
      else (st, Except.ok false)

/-- The per-chunk body of _read_device_points_in_chunks lines 615-625: an
accepted chunk is done; a rejected chunk (ok false) falls back to
sequential single-point reads of every point of the chunk; a
BACnetBatchReadError is caught and only logged, skipping the chunk. -/
noncomputable def processChunkStep (chunk : List BACnetPoint)
    (resp : Except Unit (Option (List (Option BValue))))
    (pointResp : String → Except Unit (Option BValue))
    (histories : String → List ℚ) (now : Nat) (st : ProcState) : ProcState :=
  match executeBatchRead chunk resp histories now st with
  | (st2, Except.ok true) => st2
  | (st2, Except.ok false) =>
      chunk.foldl (fun s p => readSinglePoint p (pointResp p.identifier) (histories p.identifier) s) st2
  | (st2, Except.error _) => st2

/-- Split a list into chunks of MAX_BATCH_SIZE, as the range/slice loop of
_read_device_points_in_chunks does. -/
def listChunks (l : List α) : List (List α) :=
  if l.isEmpty then []
  else l.take maxBatchSize :: listChunks (l.drop maxBatchSize)
  termination_by l.length
  decreasing_by
    cases l with
    | nil => simp_all
    | cons a as => simp [List.length_drop, maxBatchSize]; omega

/-- One device read request: the effective points of the device, the batch
transport response per chunk index, and the single-read transport
response per point identifier. -/
structure DeviceReadInput where
  points : List BACnetPoint
  batchResp : Nat → Except Unit (Option (List (Option BValue)))
  pointResp : String → Except Unit (Option BValue)

/-- BACnetService._read_device_points_in_chunks: every chunk is processed
through the per-chunk body; chunk failures never abort the loop, and the
function returns True to its caller. -/
noncomputable def readDevicePointsInChunks (dev : DeviceReadInput)
    (histories : String → List ℚ) (now : Nat) (st : ProcState) : ProcState :=
  (listChunks dev.points).foldl
    (fun (acc : ProcState × Nat) chunk =>
      (processChunkStep chunk (dev.batchResp acc.2) dev.pointResp histories now acc.1,
       acc.2 + 1))
    (st, 0) |>.1

/-- BACnetService.read_device_points: filter to the readable object types;
at most MAX_BATCH_SIZE points go through a single _execute_batch_read
whose rejection (ok false) falls back to sequential single reads of every
point, while a raised BACnetBatchReadError is caught by the outer handler
which increments devices_failed; more than MAX_BATCH_SIZE points go
through the chunked path, which never raises. -/
noncomputable def readDevicePoints (dev : DeviceReadInput)
    (histories : String → List ℚ) (now : Nat) (st : ProcState) : ProcState :=
  let readablePoints := dev.points.filter (fun p => p.objectType ∈ readableObjectTypes)
  if readablePoints.length > maxBatchSize then
    readDevicePointsInChunks
      { dev with points := readablePoints } histories now st
  else
    match executeBatchRead readablePoints (dev.batchResp 0) histories now st with
    | (st2, Except.ok true) => st2
    | (st2, Except.ok false) =>
        readablePoints.foldl
          (fun s p => readSinglePoint p (dev.pointResp p.identifier) (histories p.identifier) s) st2
    | (st2, Except.error _) => { st2 with devicesFailed := st2.devicesFailed + 1 }

/-- BACnetService.collect_all_readings: for every online device, read its
points (read_device_points catches its own exceptions) and then increment
devices_processed. -/
noncomputable def collectAllReadings (devices : List DeviceReadInput)
    (histories : String → List ℚ) (now : Nat) : ProcState :=
  devices.foldl
    (fun st dev =>
      let st2 := readDevicePoints dev histories now st
      { st2 with devicesProcessed := st2.devicesProcessed + 1 })
    initialiseResults

/-- The BAC0 session handle held in BACnetService.bacnet: whether it owns
a truthy task_manager attribute. -/
structure BAC0Conn where
  hasTaskMgr : Bool

/-- Which of the cleanup steps of _disconnect raise when attempted. -/
structure CleanupOutcome where
  taskStopRaises : Bool
  disconnectRaises : Bool
  reclaimRaises : Bool

/-- The try-body of BACnetService._disconnect (lines 143-170): skip all
cleanup when no session is held; otherwise attempt the task-manager stop
under its own inner try/except (a failure there is swallowed), then the
transport disconnect, then resource reclamation (gc.collect and the
sleep); a failure of either of the last two escapes the body.  The body
ends by clearing the handle. -/
def disconnectBody (conn : Option BAC0Conn) (o : CleanupOutcome) :
    Except Unit (Option BAC0Conn) :=
  match conn with
  | none => Except.ok none
  | some c =>
      let _taskStopSwallowed := c.hasTaskMgr && o.taskStopRaises
      if o.disconnectRaises then Except.error ()
      else if o.reclaimRaises then Except.error ()
      else Except.ok none

/-- BACnetService._disconnect: every exception from the body is caught and
logged, and the finally clause clears the handle unconditionally, so the
method never raises to its caller (the plain Option result type embeds
that) and always returns with the handle cleared. -/
def bacnetDisconnect (conn : Option BAC0Conn) (o : CleanupOutcome) :
    Option BAC0Conn :=
  match disconnectBody conn o with
  | Except.ok _ => none
  | Except.error _ => none

/-- A concrete temperature point: analogInput object type with units text
containing the word degree. -/
def tempPoint : BACnetPoint :=
  { deviceId := 7, objectType := "analogInput", instanceNumber := 3,
    identifier := "analogInput:3", objectName := none,
    units := "degreesCelsius", presentValue := none, valueLastRead := none }

/-- A concrete non-temperature readable point (a binary input). -/
def binaryPoint : BACnetPoint :=
  { deviceId := 9, objectType := "binaryInput", instanceNumber := 1,
    identifier := "binaryInput:1", objectName := none, units := "",
    presentValue := none, valueLastRead := none }

/-- A six-value history with mean 0, population standard deviation 1,
Q1 = -1, Q3 = 1 and median 0. -/
def symHistory : List ℚ := [-1, -1, -1, 1, 1, 1]

/-! Helper lemmas. -/

theorem intToNatOne : ((1 : ℤ)).toNat = 1 := rfl

theorem intToNatTwo : ((2 : ℤ)).toNat = 2 := rfl

theorem intToNatThree : ((3 : ℤ)).toNat = 3 := rfl

theorem intToNatFour : ((4 : ℤ)).toNat = 4 := rfl

/-- C5: for the history [18,19,20,21,22] and new value 30, the IQR method
computes Q1 = 19, Q3 = 21, IQR = 2, bounds [16, 24] and median 20,
returns iqr_score = |30 - 20| / 2 = 5 and flags the value out of
bounds. -/
theorem iqrWorkedExample :
    npPercentile [18, 19, 20, 21, 22] 25 = 19 ∧
    npPercentile [18, 19, 20, 21, 22] 75 = 21 ∧
    npMedian [18, 19, 20, 21, 22] = 20 ∧
    calculateIqrBounds [18, 19, 20, 21, 22] = Except.ok (16, 24, 20, 2) ∧
    detectIqrAnomaly [18, 19, 20, 21, 22] 30 = (5, true) := by
  refine ⟨?_, ?_, ?_, ?_, ?_⟩ <;>
    norm_num [detectIqrAnomaly, calculateIqrBounds, npPercentile, npMedian,
      pySort, insertSorted, minDataPoints, iqrMultiplier, intToNatOne,
      intToNatTwo, intToNatThree, intToNatFour]

/-- C6: with fewer than MIN_DATA_POINTS history values, or a zero standard
deviation (z-score method), or a zero IQR (IQR method), the z-score
method returns 0.0 and the IQR method returns (0.0, not anomalous); both
catch the internal exceptions, and their plain result types embed that
neither raises to its caller. -/
theorem anomalyDetectorFailsClosed (values : List ℚ) (newValue : ℚ) :
    (values.length < minDataPoints ∨ npStd values = 0 →
      detectZScoreAnomaly values newValue = 0) ∧
    (values.length < minDataPoints ∨
        npPercentile values 75 - npPercentile values 25 = 0 →
      detectIqrAnomaly values newValue = (0, false)) := by
  constructor
  · intro h
    unfold detectZScoreAnomaly calculateZScoreStats
    rcases h with h | h
    · rw [if_pos h]
    · by_cases hl : values.length < minDataPoints
      · rw [if_pos hl]
      · rw [if_neg hl, if_pos h]
  · intro h
    unfold detectIqrAnomaly calculateIqrBounds
    rcases h with h | h
    · rw [if_pos h]
    · by_cases hl : values.length < minDataPoints
      · rw [if_pos hl]
      · rw [if_neg hl, if_pos h]

/-- C6 witness: the concrete three-value history is below the minimum and
both detectors return the fail-closed result. -/
theorem anomalyDetectorFailsClosedWitness :
    detectZScoreAnomaly [1, 2, 3] 10 = 0 ∧
    detectIqrAnomaly [1, 2, 3] 10 = (0, false) := by
  have h := anomalyDetectorFailsClosed [1, 2, 3] 10
  exact ⟨h.1 (Or.inl (by norm_num [minDataPoints])),
         h.2 (Or.inl (by norm_num [minDataPoints]))⟩

/-- C9: the session release never raises (its plain result type embeds
that), can run with no session open, and clears the handle to None on
every return, whatever combination of cleanup steps fails. -/
theorem releaseAlwaysClearsSession (conn : Option BAC0Conn) (o : CleanupOutcome) :
    bacnetDisconnect conn o = none := by
  unfold bacnetDisconnect disconnectBody
  cases conn with
  | none => rfl
  | some c =>
      by_cases h1 : o.disconnectRaises <;> by_cases h2 : o.reclaimRaises <;>
        simp [h1, h2]


theorem readSinglePointCounters (p : BACnetPoint)
    (resp : Except Unit (Option BValue)) (history : List ℚ) (st : ProcState) :
    (readSinglePoint p resp history st).devicesFailed = st.devicesFailed ∧
    (readSinglePoint p resp history st).devicesProcessed = st.devicesProcessed := by
  unfold readSinglePoint
  cases resp with
  | error e => exact ⟨rfl, rfl⟩
  | ok vo =>
      cases vo with
      | none => exact ⟨rfl, rfl⟩
      | some v =>
          cases hu : unpack3 (detectAnomalyIfTemperature p history v) with
          | error e => simp [hu]
          | ok t =>
              obtain ⟨z, iqr, isAnom⟩ := t
              simp only [hu]
              cases hc : (createReadingWithAlarmCheck p v z iqr (pyValTruthy isAnom)).2 <;>
                simp [hc]

theorem processBatchLoopCounters (histories : String → List ℚ) (now : Nat)
    (values : List (Option BValue)) :
    ∀ (points : List BACnetPoint) (idx : Nat) (st : ProcState),
      ((processBatchLoop histories now values points idx st).1).devicesFailed
          = st.devicesFailed ∧
      ((processBatchLoop histories now values points idx st).1).devicesProcessed
          = st.devicesProcessed := by
  intro points
  induction points with
  | nil => intro idx st; simp [processBatchLoop]
  | cons p rest ih =>
      intro idx st
      simp only [processBatchLoop]
      cases hpv : values.getD idx none with
      | none => exact ih _ _
      | some v =>
          simp only []
          cases hu : unpack3 (detectAnomalyIfTemperature p (histories p.identifier) v) with
          | error e => simp
          | ok t =>
              obtain ⟨z, iqr, isAnom⟩ := t
              simp only []
              cases hc : (createReadingWithAlarmCheck p v z iqr (pyValTruthy isAnom)).2 with
              | error e => simp
              | ok alarmOpt =>
                  simp only []
                  constructor
                  · rw [(ih _ _).1]
                  · rw [(ih _ _).2]

theorem executeBatchReadCounters (points : List BACnetPoint)
    (resp : Except Unit (Option (List (Option BValue))))
    (histories : String → List ℚ) (now : Nat) (st : ProcState) :
    ((executeBatchRead points resp histories now st).1).devicesFailed
        = st.devicesFailed ∧
    ((executeBatchRead points resp histories now st).1).devicesProcessed
        = st.devicesProcessed := by
  unfold executeBatchRead processBatchResults
  cases resp with
  | error e => exact ⟨rfl, rfl⟩
  | ok values =>
      cases hb : batchAccept values (calculateExpectedValues points) with
      | false => simp [hb]
      | true =>
          simp only [hb, if_pos]
          have h := processBatchLoopCounters histories now (values.getD []) points 0 st
          cases hp : processBatchLoop histories now (values.getD []) points 0 st with
          | mk st2 e =>
              rw [hp] at h
              cases e with
              | error u => simpa using h
              | ok u => cases u; simpa using h

theorem foldSingleReadsCounters (pointResp : String → Except Unit (Option BValue))
    (histories : String → List ℚ) :
    ∀ (chunk : List BACnetPoint) (st : ProcState),
      (chunk.foldl
        (fun s p => readSinglePoint p (pointResp p.identifier) (histories p.identifier) s)
        st).devicesFailed = st.devicesFailed ∧
      (chunk.foldl
        (fun s p => readSinglePoint p (pointResp p.identifier) (histories p.identifier) s)
        st).devicesProcessed = st.devicesProcessed := by
  intro chunk
  induction chunk with
  | nil => intro st; exact ⟨rfl, rfl⟩
  | cons p rest ih =>
      intro st
      simp only [List.foldl]
      constructor
      · rw [(ih _).1, (readSinglePointCounters p _ _ st).1]
      · rw [(ih _).2, (readSinglePointCounters p _ _ st).2]

theorem processChunkStepCounters (chunk : List BACnetPoint)
    (resp : Except Unit (Option (List (Option BValue))))
    (pointResp : String → Except Unit (Option BValue))
    (histories : String → List ℚ) (now : Nat) (st : ProcState) :
    (processChunkStep chunk resp pointResp histories now st).devicesFailed
        = st.devicesFailed ∧
    (processChunkStep chunk resp pointResp histories now st).devicesProcessed
        = st.devicesProcessed := by
  unfold processChunkStep
  have h := executeBatchReadCounters chunk resp histories now st
  cases he : executeBatchRead chunk resp histories now st with
  | mk st2 r =>
      rw [he] at h
      cases r with
      | error u => simpa using h
      | ok b =>
          cases b with
          | true => simpa using h
          | false =>
              simp only []
              constructor
              · rw [(foldSingleReadsCounters pointResp histories chunk st2).1]
                simpa using h.1
              · rw [(foldSingleReadsCounters pointResp histories chunk st2).2]
                simpa using h.2

theorem chunkFoldCounters (dev : DeviceReadInput) (histories : String → List ℚ)
    (now : Nat) :
    ∀ (chunks : List (List BACnetPoint)) (acc : ProcState × Nat),
      ((chunks.foldl
        (fun (acc : ProcState × Nat) chunk =>
          (processChunkStep chunk (dev.batchResp acc.2) dev.pointResp histories now acc.1,
           acc.2 + 1)) acc).1).devicesFailed = acc.1.devicesFailed ∧
      ((chunks.foldl
        (fun (acc : ProcState × Nat) chunk =>
          (processChunkStep chunk (dev.batchResp acc.2) dev.pointResp histories now acc.1,
           acc.2 + 1)) acc).1).devicesProcessed = acc.1.devicesProcessed := by
  intro chunks
  induction chunks with
  | nil => intro acc; exact ⟨rfl, rfl⟩
  | cons c rest ih =>
      intro acc
      simp only [List.foldl]
      constructor
      · rw [(ih _).1]
        exact (processChunkStepCounters c _ _ _ _ _).1
      · rw [(ih _).2]
        exact (processChunkStepCounters c _ _ _ _ _).2

theorem readDevicePointsCounters (dev : DeviceReadInput)
    (histories : String → List ℚ) (now : Nat) (st : ProcState) :
    (readDevicePoints dev histories now st).devicesFailed ≤ st.devicesFailed + 1 ∧
    (readDevicePoints dev histories now st).devicesProcessed
        = st.devicesProcessed := by
  simp only [readDevicePoints, readDevicePointsInChunks]
  split
  · constructor
    · rw [(chunkFoldCounters _ histories now _ _).1]
      simp
    · rw [(chunkFoldCounters _ histories now _ _).2]
  · have h := executeBatchReadCounters
      (dev.points.filter (fun p => p.objectType ∈ readableObjectTypes))
      (dev.batchResp 0) histories now st
    cases he : executeBatchRead
        (dev.points.filter (fun p => p.objectType ∈ readableObjectTypes))
        (dev.batchResp 0) histories now st with
    | mk st2 r =>
        rw [he] at h
        cases r with
        | error u =>
            simp only []
            constructor
            · simp only at h
              omega
            · simpa using h.2
        | ok b =>
            cases b with
            | true =>
                simp only []
                exact ⟨by simpa using Nat.le_succ_of_le (le_of_eq h.1), by simpa using h.2⟩
            | false =>
                simp only []
                constructor
                · rw [(foldSingleReadsCounters dev.pointResp histories _ st2).1]
                  simp only at h
                  omega
                · rw [(foldSingleReadsCounters dev.pointResp histories _ st2).2]
                  simpa using h.2

theorem collectFoldCounters (histories : String → List ℚ) (now : Nat) :
    ∀ (devices : List DeviceReadInput) (st : ProcState),
      (devices.foldl
        (fun st dev =>
          let st2 := readDevicePoints dev histories now st
          { st2 with devicesProcessed := st2.devicesProcessed + 1 }) st).devicesProcessed
          = st.devicesProcessed + devices.length ∧
      (devices.foldl
        (fun st dev =>
          let st2 := readDevicePoints dev histories now st
          { st2 with devicesProcessed := st2.devicesProcessed + 1 }) st).devicesFailed
          ≤ st.devicesFailed + devices.length := by
  intro devices
  induction devices with
  | nil => intro st; simp
  | cons d rest ih =>
      intro st
      simp only [List.foldl]
      constructor
      · rw [(ih _).1]
        simp [(readDevicePointsCounters d histories now st).2]
        omega
      · have h1 := (ih { readDevicePoints d histories now st with
          devicesProcessed := (readDevicePoints d histories now st).devicesProcessed + 1 }).2
        have h2 := (readDevicePointsCounters d histories now st).1
        simp only [List.length_cons]
        refine le_trans h1 ?_
        simp only []
        omega

/-- C10: collect_all_readings increments devices_processed once per online
device, after read_device_points has absorbed any failure of that device
(a failed device only increments devices_failed, at most once), so the
returned result has devices_processed equal to the number of online
devices at cycle start and devices_failed never exceeds
devices_processed. -/
theorem collectionCounters (devices : List DeviceReadInput)
    (histories : String → List ℚ) (now : Nat) :
    (collectAllReadings devices histories now).devicesProcessed = devices.length ∧
    (collectAllReadings devices histories now).devicesFailed
        ≤ (collectAllReadings devices histories now).devicesProcessed := by
  unfold collectAllReadings
  have h := collectFoldCounters histories now devices initialiseResults
  constructor
  · rw [h.1]
    simp [initialiseResults]
  · rw [h.1]
    refine le_trans h.2 ?_
    simp [initialiseResults]

/-- C7: _create_reading_with_alarm_check always creates one Reading with
anomaly_score = max(z_score, iqr_score) (a missing score participating as
0) and is_anomaly equal to the passed verdict; exactly when the verdict
is anomalous it additionally creates one AlarmRecord of type
anomaly_detected whose severity is high when the z-score is at least 5.0
and medium otherwise, and whose message carries the point identifier, the
value and both component scores. -/
theorem recordReadingAlarmContract (p : BACnetPoint) (v : BValue) (zf qf : ℝ) :
    ((createReadingWithAlarmCheck p v (PyVal.num zf) (PyVal.num qf) false).1
        = { pointIdentifier := p.identifier, value := v,
            anomalyScore := max zf qf, isAnomaly := false }) ∧
    ((createReadingWithAlarmCheck p v (PyVal.num zf) (PyVal.num qf) false).2
        = Except.ok none) ∧
    ((createReadingWithAlarmCheck p v (PyVal.num zf) (PyVal.num qf) true).1
        = { pointIdentifier := p.identifier, value := v,
            anomalyScore := max zf qf, isAnomaly := true }) ∧
    ((createReadingWithAlarmCheck p v (PyVal.num zf) (PyVal.num qf) true).2
        = Except.ok (some
          { deviceId := p.deviceId, pointIdentifier := p.identifier,
            alarmType := "anomaly_detected",
            severity := if 5 ≤ zf then "high" else "medium",
            triggeredValue := v, thresholdValue := max zf qf,
            message := { identifier := p.identifier, value := v,
                         zScore := zf, iqrScore := qf } })) ∧
    ((createReadingWithAlarmCheck p v PyVal.pyNone (PyVal.num qf) false).1.anomalyScore
        = max 0 qf) ∧
    ((createReadingWithAlarmCheck p v (PyVal.num zf) PyVal.pyNone false).1.anomalyScore
        = max zf 0) := by
  have hsev : (if zf < 5 then "medium" else "high")
      = (if 5 ≤ zf then "high" else "medium") := by
    by_cases h : zf < 5
    · simp [h, not_le.mpr h]
    · simp [h, not_lt.mp h]
  refine ⟨rfl, rfl, rfl, ?_, rfl, rfl⟩
  simp only [createReadingWithAlarmCheck, pyToFloat, pyOrZero, hsev]
  rfl

theorem tempPointIsTemperature : isTemperaturePoint tempPoint = true := by decide

theorem binaryPointNotTemperature : isTemperaturePoint binaryPoint = false := by decide

theorem symHistoryMean : npMean symHistory = 0 := by
  norm_num [npMean, symHistory]

theorem symHistoryVar : npVar symHistory = 1 := by
  norm_num [npVar, npMean, symHistory]

theorem symHistoryStd : npStd symHistory = 1 := by
  rw [npStd, symHistoryVar]
  simp

theorem symHistoryZScore (x : ℚ) :
    detectZScoreAnomaly symHistory x = |((x : ℚ) : ℝ)| := by
  unfold detectZScoreAnomaly calculateZScoreStats
  rw [if_neg (by norm_num [symHistory, minDataPoints])]
  rw [if_neg (by rw [symHistoryStd]; norm_num)]
  rw [symHistoryStd, symHistoryMean]
  simp

theorem ceilFiveQuarters : (⌈(5 / 4 : ℚ)⌉) = 2 := by
  rw [Int.ceil_eq_iff]
  norm_num

theorem ceilFiveHalves : (⌈(5 / 2 : ℚ)⌉) = 3 := by
  rw [Int.ceil_eq_iff]
  norm_num

theorem ceilFifteenQuarters : (⌈(15 / 4 : ℚ)⌉) = 4 := by
  rw [Int.ceil_eq_iff]
  norm_num

theorem symHistoryIqrAt30 : detectIqrAnomaly symHistory 30 = (15, true) := by
  norm_num [detectIqrAnomaly, calculateIqrBounds, npPercentile, npMedian,
    pySort, insertSorted, minDataPoints, iqrMultiplier, symHistory,
    ceilFiveQuarters, ceilFiveHalves, ceilFifteenQuarters,
    intToNatOne, intToNatTwo, intToNatThree, intToNatFour]

theorem symHistoryIqrAtFiveHalves :
    detectIqrAnomaly symHistory (5 / 2) = (5 / 4, false) := by
  norm_num [detectIqrAnomaly, calculateIqrBounds, npPercentile, npMedian,
    pySort, insertSorted, minDataPoints, iqrMultiplier, symHistory,
    ceilFiveQuarters, ceilFiveHalves, ceilFifteenQuarters,
    intToNatOne, intToNatTwo, intToNatThree, intToNatFour]
  rw [abs_of_pos (by norm_num : (0 : ℚ) < 5 / 2)]
  norm_num

theorem tempDetectAt30 :
    detectAnomalyIfTemperature tempPoint symHistory (BValue.num 30) =
      [PyVal.num 30, PyVal.num 15, PyVal.bool true] := by
  have hz : detectZScoreAnomaly symHistory 30 = (30 : ℝ) := by
    rw [symHistoryZScore]
    push_cast
    rw [abs_of_pos]
    norm_num
  simp only [detectAnomalyIfTemperature, tempPointIsTemperature, if_true,
    parseFloat, hz, symHistoryIqrAt30, combinedIsAnomaly, Bool.or_true]
  norm_num

theorem tempDetectAtFiveHalves :
    detectAnomalyIfTemperature tempPoint symHistory (BValue.num (5 / 2)) =
      [PyVal.num (5 / 2), PyVal.num (5 / 4), PyVal.bool false] := by
  have hz : detectZScoreAnomaly symHistory (5 / 2) = ((5 : ℝ) / 2) := by
    rw [symHistoryZScore]
    push_cast
    rw [abs_of_pos]
    norm_num
  simp only [detectAnomalyIfTemperature, tempPointIsTemperature, if_true,
    parseFloat, hz, symHistoryIqrAtFiveHalves, combinedIsAnomaly, Bool.or_false,
    zScoreThreshold]
  norm_num

/-- C8 counterexample: a temperature reading of 30 against the symmetric
history is persisted by the single-point read path with anomaly_score
max(30, 15) = 30, which does not lie in [0, 1]. -/
theorem anomalyScoreOutsideUnitInterval :
    ((readSinglePoint tempPoint (Except.ok (some (BValue.num 30))) symHistory
        initialiseResults).readings.map Reading.anomalyScore = [30]) ∧
    ¬ ((30 : ℝ) ≤ 1) := by
  constructor
  · simp only [readSinglePoint, tempDetectAt30, unpack3, pyValTruthy,
      createReadingWithAlarmCheck, pyToFloat, pyOrZero, initialiseResults]
    norm_num
  · norm_num

/-- C8 (amended): the anomaly score persisted on a pipeline Reading is
max(z_score, iqr_score): it is nonnegative whenever the component scores
are (as the detectors guarantee), but it is not bounded by 1; the [0,1]
validators in the data model apply to data_quality_score, not to
anomaly_score. -/
theorem persistedAnomalyScoreNonneg (p : BACnetPoint) (v : BValue)
    (zf qf : ℝ) (hz : 0 ≤ zf) (hq : 0 ≤ qf) (isAnomaly : Bool) :
    0 ≤ (createReadingWithAlarmCheck p v (PyVal.num zf) (PyVal.num qf)
          isAnomaly).1.anomalyScore ∧
    (createReadingWithAlarmCheck p v (PyVal.num zf) (PyVal.num qf)
          isAnomaly).1.anomalyScore = max zf qf := by
  cases isAnomaly <;>
    simp only [createReadingWithAlarmCheck, pyToFloat, pyOrZero] <;>
    exact ⟨le_max_of_le_left hz, rfl⟩

/-- C8 amended witness at a concrete anomalous record. -/
theorem persistedAnomalyScoreNonnegWitness :
    0 ≤ (createReadingWithAlarmCheck tempPoint (BValue.num 30) (PyVal.num 2)
          (PyVal.num 3) true).1.anomalyScore ∧
    (createReadingWithAlarmCheck tempPoint (BValue.num 30) (PyVal.num 2)
          (PyVal.num 3) true).1.anomalyScore = max 2 3 :=
  persistedAnomalyScoreNonneg tempPoint (BValue.num 30) 2 3
    (by norm_num) (by norm_num) true

/-- C4 counterexample: at z-score exactly 2.5 (with the IQR and
isolation-forest signals quiet) the reading pipeline persists
is_anomaly = false, while the ensemble verdict formula of
detect_ensemble_anomaly returns true, so the verdict driving the Reading
is not the ensemble verdict. -/
theorem pipelineVerdictNotEnsembleVerdict :
    detectAnomalyIfTemperature tempPoint symHistory (BValue.num (5 / 2)) =
      [PyVal.num (5 / 2), PyVal.num (5 / 4), PyVal.bool false] ∧
    ensembleIsAnomaly (5 / 2) (5 / 4) false 0 false = true := by
  refine ⟨tempDetectAtFiveHalves, ?_⟩
  simp only [ensembleIsAnomaly, zScoreThreshold]
  norm_num

/-- C4 (amended): the boolean verdict that decides the Reading is_anomaly
flag and alarm creation in the collection pipeline is
combined_is_anomaly = (z_score strictly above 2.5) OR the IQR
out-of-bounds flag; the isolation forest and the fused ensemble score are
not consulted (detect_ensemble_anomaly is not called by the pipeline). -/
theorem pipelineVerdictIsZOrIqr (p : BACnetPoint) (history : List ℚ) (x : ℚ)
    (hp : isTemperaturePoint p = true) :
    detectAnomalyIfTemperature p history (BValue.num x) =
      [PyVal.num (detectZScoreAnomaly history x),
       PyVal.num (((detectIqrAnomaly history x).1 : ℚ) : ℝ),
       PyVal.bool (combinedIsAnomaly (detectZScoreAnomaly history x)
         (detectIqrAnomaly history x).2)] := by
  simp only [detectAnomalyIfTemperature, hp, if_true, parseFloat]

/-- C4 amended witness: a concrete temperature point with an empty history
goes through the z-or-IQR verdict and yields a quiet tuple. -/
theorem pipelineVerdictIsZOrIqrWitness :
    detectAnomalyIfTemperature tempPoint [] (BValue.num 1) =
      [PyVal.num 0, PyVal.num 0, PyVal.bool false] := by
  have h := pipelineVerdictIsZOrIqr tempPoint [] 1 tempPointIsTemperature
  rw [h]
  have hz : detectZScoreAnomaly [] (1 : ℚ) = 0 := by
    unfold detectZScoreAnomaly calculateZScoreStats
    rw [if_pos (by norm_num [minDataPoints])]
  have hiqr : detectIqrAnomaly [] (1 : ℚ) = (0, false) := by
    unfold detectIqrAnomaly calculateIqrBounds
    rw [if_pos (by norm_num [minDataPoints])]
  rw [hz, hiqr]
  simp only [combinedIsAnomaly, zScoreThreshold, Bool.or_false]
  norm_num

/-- C3: the claim is right and the code is wrong.  For a readable
non-temperature point with a non-null present value,
_detect_anomaly_if_temperature returns the 2-tuple (None, False) while
both callers unpack three values, so CPython raises ValueError: the batch
path aborts with the state unchanged (the error is then wrapped into
BACnetBatchReadError) and the single-read path swallows the error after
persisting nothing; no Reading is created and no point cache is updated,
against the claim of exactly one Reading per non-null value of any
readable object type. -/
theorem nonTemperatureReadPersistsNothing :
    (processBatchResults [binaryPoint]
        [some (BValue.nonNum "active"), some (BValue.nonNum "BV one")]
        (fun _ => []) 0 initialiseResults)
      = (initialiseResults, Except.error ()) ∧
    (readSinglePoint binaryPoint (Except.ok (some (BValue.nonNum "active")))
        [] initialiseResults).readings = [] ∧
    (readSinglePoint binaryPoint (Except.ok (some (BValue.nonNum "active")))
        [] initialiseResults).readingsCollected = 0 := by
  have hdet : ∀ history : List ℚ,
      detectAnomalyIfTemperature binaryPoint history (BValue.nonNum "active") =
        [PyVal.pyNone, PyVal.bool false] := by
    intro history
    simp [detectAnomalyIfTemperature, binaryPointNotTemperature]
  refine ⟨?_, ?_, ?_⟩
  · simp only [processBatchResults, processBatchLoop, List.getD, hdet, unpack3]
    rfl
  · simp only [readSinglePoint, hdet, unpack3]
    rfl
  · simp only [readSinglePoint, hdet, unpack3]
    rfl

theorem readSinglePointTrace (p : BACnetPoint)
    (resp : Except Unit (Option BValue)) (history : List ℚ) (st : ProcState) :
    (readSinglePoint p resp history st).singleReads
      = st.singleReads ++ [p.identifier] := by
  unfold readSinglePoint
  cases resp with
  | error e => rfl
  | ok vo =>
      cases vo with
      | none => rfl
      | some v =>
          cases hu : unpack3 (detectAnomalyIfTemperature p history v) with
          | error e => simp [hu]
          | ok t =>
              obtain ⟨z, iqr, isAnom⟩ := t
              simp only [hu]
              cases hc : (createReadingWithAlarmCheck p v z iqr (pyValTruthy isAnom)).2 <;>
                simp [hc]

theorem foldSingleReadsTrace (pointResp : String → Except Unit (Option BValue))
    (histories : String → List ℚ) :
    ∀ (chunk : List BACnetPoint) (st : ProcState),
      (chunk.foldl
        (fun s p => readSinglePoint p (pointResp p.identifier) (histories p.identifier) s)
        st).singleReads = st.singleReads ++ chunk.map BACnetPoint.identifier := by
  intro chunk
  induction chunk with
  | nil => intro st; simp
  | cons p rest ih =>
      intro st
      simp only [List.foldl, List.map_cons]
      rw [ih, readSinglePointTrace]
      simp

theorem executeBatchReadRejected (points : List BACnetPoint)
    (values : Option (List (Option BValue)))
    (histories : String → List ℚ) (now : Nat) (st : ProcState)
    (hb : batchAccept values (calculateExpectedValues points) = false) :
    executeBatchRead points (Except.ok values) histories now st
      = (st, Except.ok false) := by
  unfold executeBatchRead
  simp [hb]

/-- C1 (amended): a batched chunk read is accepted as success only if the
returned value list is non-null, non-empty and of exactly the expected
length; on a count mismatch or a null response the chunk is rejected and
every point of the chunk is read by strictly sequential single-point
reads, in order, regardless of the individual read outcomes (each failure
is absorbed inside _read_single_point); a transport error, by contrast,
raises BACnetBatchReadError, which the chunked path catches and logs
without any per-point fallback, leaving the state untouched. -/
theorem chunkValidationAndFallback (chunk : List BACnetPoint)
    (values : Option (List (Option BValue)))
    (pointResp : String → Except Unit (Option BValue))
    (histories : String → List ℚ) (now : Nat) (st : ProcState) :
    ((executeBatchRead chunk (Except.ok values) histories now st).2 = Except.ok true →
        batchAccept values (calculateExpectedValues chunk) = true) ∧
    (batchAccept values (calculateExpectedValues chunk) = true ↔
        ∃ l, values = some l ∧ l ≠ [] ∧ l.length = calculateExpectedValues chunk) ∧
    (batchAccept values (calculateExpectedValues chunk) = false →
        (processChunkStep chunk (Except.ok values) pointResp histories now st).singleReads
          = st.singleReads ++ chunk.map BACnetPoint.identifier) ∧
    (processChunkStep chunk (Except.error ()) pointResp histories now st = st) := by
  refine ⟨?_, ?_, ?_, ?_⟩
  · intro h
    by_cases hb : batchAccept values (calculateExpectedValues chunk) = true
    · exact hb
    · rw [Bool.not_eq_true] at hb
      rw [executeBatchReadRejected chunk values histories now st hb] at h
      simp at h
  · cases values with
    | none => simp [batchAccept]
    | some l =>
        simp only [batchAccept, Bool.and_eq_true, beq_iff_eq, Bool.not_eq_true']
        constructor
        · intro h
          refine ⟨l, rfl, ?_, h.2⟩
          intro hnil
          rw [hnil] at h
          simp at h
        · rintro ⟨l2, hl2, hne, hlen⟩
          cases hl2
          refine ⟨?_, hlen⟩
          cases l with
          | nil => exact absurd rfl hne
          | cons a as => rfl
  · intro hb
    unfold processChunkStep
    rw [executeBatchReadRejected chunk values histories now st hb]
    exact foldSingleReadsTrace pointResp histories chunk st
  · simp [processChunkStep, executeBatchRead]

/-- C1 witness: a one-point chunk whose response has the wrong value count
is rejected and falls back to a sequential read of that point. -/
theorem chunkValidationAndFallbackWitness :
    batchAccept (some [some (BValue.nonNum "x")])
        (calculateExpectedValues [binaryPoint]) = false ∧
    (processChunkStep [binaryPoint]
        (Except.ok (some [some (BValue.nonNum "x")]))
        (fun _ => Except.ok none) (fun _ => []) 0
        initialiseResults).singleReads = ["binaryInput:1"] := by
  have hb : batchAccept (some [some (BValue.nonNum "x")])
      (calculateExpectedValues [binaryPoint]) = false := by decide
  refine ⟨hb, ?_⟩
  have h := (chunkValidationAndFallback [binaryPoint]
    (some [some (BValue.nonNum "x")]) (fun _ => Except.ok none) (fun _ => [])
    0 initialiseResults).2.2.1 hb
  rw [h]
  rfl

/-- C1 counterexample: on a transport error the chunk body performs no
sequential single-point reads at all (the per-point fallback the claim
requires would have traced the point identifier), so the claim as stated
is false for the transport-error case. -/
theorem transportErrorSkipsSequentialFallback :
    (processChunkStep [tempPoint] (Except.error ())
        (fun _ => Except.ok (some (BValue.num 25))) (fun _ => symHistory) 0
        initialiseResults).singleReads = [] ∧
    [tempPoint].map BACnetPoint.identifier = ["analogInput:3"] := by
  constructor
  · simp [processChunkStep, executeBatchRead, initialiseResults]
  · rfl

theorem digitCharIsDigit (k : Nat) (h : k < 10) :
    (Nat.digitChar k).isDigit = true := by
  interval_cases k <;> decide

theorem toDigitsCoreTenDigits :
    ∀ (fuel n : Nat) (ds : List Char), (∀ c ∈ ds, c.isDigit = true) →
      ∀ c ∈ Nat.toDigitsCore 10 fuel n ds, c.isDigit = true := by
  intro fuel
  induction fuel with
  | zero =>
      intro n ds hds c hc
      exact hds c hc
  | succ f ih =>
      intro n ds hds c hc
      unfold Nat.toDigitsCore at hc
      by_cases h0 : n / 10 = 0
      · rw [if_pos h0] at hc
        rcases List.mem_cons.mp hc with hc | hc
        · rw [hc]
          exact digitCharIsDigit (n % 10) (Nat.mod_lt n (by norm_num))
        · exact hds c hc
      · rw [if_neg h0] at hc
        refine ih (n / 10) (Nat.digitChar (n % 10) :: ds) ?_ c hc
        intro d hd
        rcases List.mem_cons.mp hd with hd | hd
        · rw [hd]
          exact digitCharIsDigit (n % 10) (Nat.mod_lt n (by norm_num))
        · exact hds d hd

theorem natReprNeUnits (n : Nat) : Nat.repr n ≠ "units" := by
  intro h
  have hall : ∀ c ∈ Nat.toDigits 10 n, c.isDigit = true := by
    intro c hc
    refine toDigitsCoreTenDigits (n + 1) n [] ?_ c hc
    intro d hd
    cases hd
  have hrepr : (Nat.toDigits 10 n).asString = "units" := h
  have hdata : Nat.toDigits 10 n = "units".data := congrArg String.data hrepr
  have hu : ('u' : Char) ∈ Nat.toDigits 10 n := by
    rw [hdata]
    decide
  have := hall _ hu
  simp at this

theorem expectedValuesFold :
    ∀ (pts : List BACnetPoint) (acc : Nat),
      pts.foldl
        (fun acc p => acc + (if p.objectType ∈ analogObjectTypes then 3 else 2)) acc
      = acc + 3 * pts.countP (fun p => decide (p.objectType ∈ analogObjectTypes))
          + 2 * pts.countP (fun p => !decide (p.objectType ∈ analogObjectTypes)) := by
  intro pts
  induction pts with
  | nil => intro acc; simp
  | cons p rest ih =>
      intro acc
      simp only [List.foldl, List.countP_cons]
      rw [ih]
      by_cases hp : p.objectType ∈ analogObjectTypes <;> simp [hp] <;> ring

theorem buildRequestFold (pts : List BACnetPoint) :
    ∀ (acc : List String),
      pts.foldl (fun acc p => acc ++ pointRequestParts p) acc
        = acc ++ pts.flatMap pointRequestParts := by
  induction pts with
  | nil => intro acc; simp
  | cons p rest ih =>
      intro acc
      simp only [List.foldl, List.flatMap_cons]
      rw [ih]
      simp

theorem readableTypeNeUnitsStr (s : String) (hs : s ∈ readableObjectTypes) :
    s ≠ "units" := by
  fin_cases hs <;> decide

/-- C2: the expected value count for a chunk is 3 times the number of
analog-family points plus 2 times the number of all other points, and the
batch request is the device address followed, for each point in order, by
a segment requesting presentValue and objectName, with the units property
requested exactly for the analog-family points. -/
theorem batchRequestAndExpectedCount (address : String) (pts : List BACnetPoint)
    (hr : ∀ p ∈ pts, p.objectType ∈ readableObjectTypes) :
    calculateExpectedValues pts
        = 3 * pts.countP (fun p => decide (p.objectType ∈ analogObjectTypes))
          + 2 * pts.countP (fun p => !decide (p.objectType ∈ analogObjectTypes)) ∧
    buildBatchRequest address pts = address :: pts.flatMap pointRequestParts ∧
    ∀ p ∈ pts,
      "presentValue" ∈ pointRequestParts p ∧
      "objectName" ∈ pointRequestParts p ∧
      ("units" ∈ pointRequestParts p ↔ p.objectType ∈ analogObjectTypes) := by
  refine ⟨?_, ?_, ?_⟩
  · unfold calculateExpectedValues
    rw [expectedValuesFold]
    omega
  · unfold buildBatchRequest
    rw [buildRequestFold]
    rfl
  · intro p hp
    refine ⟨?_, ?_, ?_, ?_⟩
    · by_cases ha : p.objectType ∈ analogObjectTypes <;> simp [pointRequestParts, ha]
    · by_cases ha : p.objectType ∈ analogObjectTypes <;> simp [pointRequestParts, ha]
    · intro hu
      by_cases ha : p.objectType ∈ analogObjectTypes
      · exact ha
      · exfalso
        have hseg : pointRequestParts p
            = [p.objectType, toString p.instanceNumber, "presentValue", "objectName"] := by
          simp [pointRequestParts, ha]
        rw [hseg] at hu
        simp only [List.mem_cons, List.not_mem_nil, or_false] at hu
        rcases hu with hu | hu | hu | hu
        · exact readableTypeNeUnitsStr p.objectType (hr p hp) hu.symm
        · have : toString p.instanceNumber = "units" := hu.symm
          exact natReprNeUnits p.instanceNumber this
        · exact absurd hu.symm (by decide)
        · exact absurd hu.symm (by decide)
    · intro ha
      simp [pointRequestParts, ha]

/-- C2 witness: one analog and one binary point give an expected count of
3 + 2 = 5 and the concrete request segments, with the units property
present exactly on the analog segment. -/
theorem batchRequestAndExpectedCountWitness :
    calculateExpectedValues [tempPoint, binaryPoint] = 5 ∧
    buildBatchRequest "192.168.1.100" [tempPoint, binaryPoint]
      = ["192.168.1.100",
         "analogInput", "3", "presentValue", "objectName", "units",
         "binaryInput", "1", "presentValue", "objectName"] ∧
    ("units" ∈ pointRequestParts tempPoint ↔
        tempPoint.objectType ∈ analogObjectTypes) ∧
    ("units" ∈ pointRequestParts binaryPoint ↔
        binaryPoint.objectType ∈ analogObjectTypes) := by
  have h := batchRequestAndExpectedCount "192.168.1.100" [tempPoint, binaryPoint]
    (by intro p hp; fin_cases hp <;> decide)
  refine ⟨?_, ?_, (h.2.2 tempPoint (by simp)).2.2, (h.2.2 binaryPoint (by simp)).2.2⟩
  · rw [h.1]
    decide
  · rw [h.2.1]
    decide
